import Mathlib

/-!
Verification of the ResumeParser repository (src/resumep.py) against its
natural-language specification.

The program is a Streamlit app.  Its pieces, embedded below:

* `extract_text_from_pdf` (lines 50-66): concatenates the text of each PDF
  page; a PyPDF2 exception yields `None`.  The external PDF library is the
  boundary, so the embedding takes the list of page texts (or `none` for an
  unreadable file) as input.
* `generate_table_from_resumes` (lines 68-95): guard on an empty input list,
  then a join with a literal separator and a fixed f-string prompt template,
  then one `model.generate_content` call.  The LLM is external, so the
  embedding returns which call is made (`GenResult`).
* the extraction loop and orchestration guard (lines 112-134).
* the markdown-to-DataFrame block (lines 137-150): split the stripped
  response on newlines, take line 0 as header (strip pipes, split on pipes,
  strip each cell), take every line from index 2 as a data row the same way,
  then `pd.DataFrame(data, columns=header)` inside a try/except whose
  `except` falls back to showing the raw text.

Python-semantics notes reflected in the embedding:
* `str.strip()` removes leading/trailing whitespace (modelled over the ASCII
  whitespace set); `str.strip('|')` removes ALL leading and trailing pipes.
* `s.split(c)` on a single-character separator keeps empty fields and maps
  `""` to `[""]`.
* `pd.DataFrame(data, columns=header)` with a list of row lists succeeds iff
  `data == []` or the maximum row length equals `len(header)`; rows shorter
  than the maximum are right-padded with NaN.  A cell is modelled as
  `Option String`, `none` standing for NaN.
* `if text:` is Python truthiness: `None` and `""` are both falsy.
-/

/-- Whitespace set of Python's `str.strip()` (ASCII part). -/
def pyIsSpace (c : Char) : Bool :=
  c == ' ' || c == '\t' || c == '\n' || c == '\r' || c == '\x0b' || c == '\x0c'

/-- Remove the characters satisfying `p` from both ends of a string, as
Python's `str.strip` family does. -/
def stripChars (p : Char → Bool) (s : String) : String :=
  ⟨((s.data.dropWhile p).reverse.dropWhile p).reverse⟩

/-- Python `s.strip()`. -/
def pyStrip (s : String) : String := stripChars pyIsSpace s

/-- Python `s.strip('|')`: removes all leading and trailing pipe characters. -/
def pyStripPipes (s : String) : String := stripChars (fun c => c == '|') s

/-- Split a character list on a separator character, keeping empty fields;
the empty list maps to `[[]]`, matching Python's `str.split` on a
one-character separator. -/
def splitOnChar (sep : Char) : List Char → List (List Char)
  | [] => [[]]
  | c :: rest =>
    match splitOnChar sep rest with
    | [] => [[]]
    | cur :: done =>
      if c == sep then [] :: cur :: done
      else (c :: cur) :: done

/-- Python `s.split(sep)` for a single-character `sep`. -/
def pySplit (sep : Char) (s : String) : List String :=
  (splitOnChar sep s.data).map (fun cs => ⟨cs⟩)

/-- Source line 143 (and 140): `[r.strip() for r in line.strip('|').split('|')]`. -/
def splitRow (line : String) : List String :=
  ((pySplit '|' (pyStripPipes line)).map pyStrip)

/-- Source line 139: `generated_content.strip().split('\n')`. -/
def contentLines (s : String) : List String := pySplit '\n' (pyStrip s)

/-- Source line 140: the header cells taken from line 0. -/
def headerCells (lines : List String) : List String := splitRow (lines.headD "")

/-- Source lines 141-144: the `data` list built from `lines[2:]`. -/
def dataCells (lines : List String) : List (List String) :=
  (lines.drop 2).map splitRow

/-- Maximum row length, as `pandas.lib.to_object_array` infers the column
count of a list of row lists. -/
def dfMaxLen (data : List (List String)) : Nat :=
  data.foldr (fun r m => max r.length m) 0

/-- NaN-padding applied by pandas to a row shorter than the column count:
cells become `some`, missing positions become `none` (NaN). -/
def padRow (n : Nat) (r : List String) : List (Option String) :=
  r.map some ++ List.replicate (n - r.length) none

/-- The DataFrame produced by line 146, viewed as columns plus rows. -/
structure ParsedTable where
  columns : List String
  rows : List (List (Option String))
deriving Repr, DecidableEq

/-- Result of the try/except around lines 138-150: either a DataFrame is
built and shown, or the exception handler shows the raw output. -/
inductive ParseResult where
  | ok : ParsedTable → ParseResult
  | fallback : ParseResult
deriving Repr, DecidableEq

/-- The markdown-to-DataFrame block of lines 139-146 after the newline
split: header from line 0, data from lines 2.., and the
`pd.DataFrame(data, columns=header)` success condition. -/
def parseFromLines (lines : List String) : ParseResult :=
  if dataCells lines = [] ∨ dfMaxLen (dataCells lines) = (headerCells lines).length then
    .ok ⟨headerCells lines, (dataCells lines).map (padRow (headerCells lines).length)⟩
  else
    .fallback

/-- The whole markdown-to-DataFrame block (source lines 137-150) as a pure
function of `generated_content`. -/
def parseMarkdownTable (generated_content : String) : ParseResult :=
  parseFromLines (contentLines generated_content)

/-- Source lines 50-66, `extract_text_from_pdf`: the PyPDF2 boundary is
modelled by the input — `some pages` is a readable PDF with those page
texts, `none` is a file on which `PyPDF2.PdfReader` (or a page) raises.
The function concatenates the page texts with `text += page.extract_text()`
and returns `None` on an exception. -/
def extract_text_from_pdf : Option (List String) → Option String
  | none => none
  | some pages => some (pages.foldl (fun acc p => acc ++ p) "")

/-- Python `sep.join(texts)` (source line 80). -/
def pyJoin (sep : String) : List String → String
  | [] => ""
  | [t] => t
  | t :: ts => t ++ sep ++ pyJoin sep ts

/-- The literal separator of source line 80. -/
def RESUME_SEPARATOR : String := "\n\n--- NEW RESUME ---\n\n"

/-- The f-string template of source lines 82-89, part before
`{combined_text}`, transcribed verbatim. -/
def promptHead : String :=
  "\n    Based on the following resume texts, create a Markdown table summarizing the key information for each candidate.\n    The table should have the following columns: \"Name\", \"Age / DOB\", \"Years of Experience\", \"Specialization / JD\", \"Key Skills / Certifications\", and \"Other Details\".\n    Extract the information as accurately as possible. If a piece of information is not found, write \"Not specified\".\n\n    Resume Texts:\n    "

/-- The f-string template of source lines 82-89, part after
`{combined_text}`. -/
def promptTail : String := "\n    "

/-- What `generate_table_from_resumes` does before/at the external LLM
boundary: either it returns a string without calling the model, or it
invokes `model.generate_content` on the given prompt. -/
inductive GenResult where
  | message : String → GenResult
  | callModel : String → GenResult
deriving Repr, DecidableEq

/-- Source lines 68-92, `generate_table_from_resumes`, up to the external
`model.generate_content` call: the `if not resume_texts` guard, the join of
line 80, and the prompt of lines 82-89. -/
def generate_table_from_resumes (resume_texts : List String) : GenResult :=
  if resume_texts = [] then .message "No resume text provided."
  else
    .callModel (promptHead ++ pyJoin RESUME_SEPARATOR resume_texts ++ promptTail)

/-- One uploaded file in the extraction loop: its `pdf.name` and the value
`extract_text_from_pdf` returns for it. -/
structure UploadedFile where
  name : String
  extractResult : Option String
deriving Repr, DecidableEq

/-- Python truthiness of `if text:` on line 122: `None` and `""` are falsy. -/
def pyTruthy : Option String → Bool
  | none => false
  | some s => s != ""

/-- The extraction loop of source lines 116-125: first component is
`all_resume_texts`, second is the list of file names for which the
`st.warning(... Skipping.)` branch ran. -/
def extractionLoop : List UploadedFile → List String × List String
  | [] => ([], [])
  | f :: rest =>
    if pyTruthy f.extractResult then
      (f.extractResult.getD "" :: (extractionLoop rest).1, (extractionLoop rest).2)
    else
      ((extractionLoop rest).1, f.name :: (extractionLoop rest).2)

/-- Whether the `if all_resume_texts:` guard of line 128 runs the LLM step,
and with which call. -/
inductive LLMInvocation where
  | skipped : LLMInvocation
  | generate : GenResult → LLMInvocation
deriving Repr, DecidableEq

/-- Source lines 116-130: run the extraction loop, then call
`generate_table_from_resumes` only when `all_resume_texts` is non-empty. -/
def orchestrate (files : List UploadedFile) : LLMInvocation :=
  if (extractionLoop files).1 = [] then .skipped
  else .generate (generate_table_from_resumes (extractionLoop files).1)

/-- `true` exactly when `model.generate_content` is reached. -/
def llmInvoked : LLMInvocation → Bool
  | .generate (.callModel _) => true
  | _ => false

/-- Does `needle` start `hay`? -/
def leadsWith : List Char → List Char → Bool
  | [], _ => true
  | _ :: _, [] => false
  | a :: as, b :: bs => a == b && leadsWith as bs

/-- Does `needle` occur contiguously in `hay`? -/
def hasSub (needle : List Char) : List Char → Bool
  | [] => leadsWith needle []
  | c :: rest => leadsWith needle (c :: rest) || hasSub needle rest

/-- `needle` occurs as a contiguous substring of `hay`. -/
abbrev occursIn (needle hay : String) : Prop := hasSub needle.data hay.data = true

/-- Inversion of a successful run of the markdown-to-DataFrame block: the
DataFrame success condition held and the table is exactly the header plus
the NaN-padded data rows. -/
theorem parseFromLines_ok_inv {lines : List String} {t : ParsedTable}
    (h : parseFromLines lines = .ok t) :
    (dataCells lines = [] ∨ dfMaxLen (dataCells lines) = (headerCells lines).length) ∧
    t = ⟨headerCells lines, (dataCells lines).map (padRow (headerCells lines).length)⟩ := by
  unfold parseFromLines at h
  split at h
  · rename_i hc
    injection h with h1
    exact ⟨hc, h1.symm⟩
  · exact (ParseResult.noConfusion h)

/-- Every row of a list is at most as long as the inferred column count. -/
theorem length_le_dfMaxLen {r : List String} {data : List (List String)}
    (h : r ∈ data) : r.length ≤ dfMaxLen data := by
  induction data with
  | nil => cases h
  | cons a as ih =>
    rcases List.mem_cons.mp h with rfl | h2
    · exact Nat.le_max_left _ _
    · exact Nat.le_trans (ih h2) (Nat.le_max_right _ _)

/-- NaN-padding a row no longer than `n` yields exactly `n` cells. -/
theorem padRow_length {n : Nat} {r : List String} (h : r.length ≤ n) :
    (padRow n r).length = n := by
  simp only [padRow, List.length_append, List.length_map, List.length_replicate]
  omega

/-- NaN-padding a row of exactly `n` cells adds nothing: the row is kept
verbatim (each cell wrapped in `some`). -/
theorem padRow_eq_map_some {n : Nat} {r : List String} (h : r.length = n) :
    padRow n r = r.map some := by
  subst h
  simp [padRow]

/-- Claim C1, counterexample: on the input with no pipe-delimited line the
code does not fail at all (there is no `NoTableFound` error in the code) —
it produces a table whose single column is the whole first line and whose
row list is empty, and in particular does not even reach the `except`
fallback. -/
theorem C1_counterexample :
    parseMarkdownTable "Here is some text with no table." =
      .ok ⟨["Here is some text with no table."], []⟩ ∧
    parseMarkdownTable "Here is some text with no table." ≠ .fallback := by
  decide

/-- Claim C1, amended: the code never searches for a header line and has no
`NoTableFound` error; line 0 is unconditionally the header, so every
single-line input — pipe-delimited or not — parses successfully into a
table with that line's cells as columns and no rows. -/
theorem C1_amended_single_line (l0 : String) :
    parseFromLines [l0] = .ok ⟨splitRow l0, []⟩ := rfl

/-- Witness for C1's amended theorem at the claim's concrete input. -/
theorem C1_witness :
    parseFromLines ["Here is some text with no table."] =
      .ok ⟨splitRow "Here is some text with no table.", []⟩ :=
  C1_amended_single_line "Here is some text with no table."

/-- Claim C2, counterexample: with header line `| Name | Years |` followed
by the non-separator line `Alice, 5 years`, the code does not fail with
`MalformedSeparator` (no such error exists): it succeeds with columns
`["Name", "Years"]` and zero data rows. -/
theorem C2_counterexample :
    parseMarkdownTable "| Name | Years |\nAlice, 5 years" =
      .ok ⟨["Name", "Years"], []⟩ ∧
    parseMarkdownTable "| Name | Years |\nAlice, 5 years" ≠ .fallback := by
  decide

/-- Claim C2, amended: the code never inspects line 1 — it is skipped
unconditionally by `lines[2:]` — so the two-line input with first line
`| Name | Years |` parses successfully to columns `["Name", "Years"]` and
no rows whatever the second line is. -/
theorem C2_amended_no_separator_check (l1 : String) :
    parseFromLines ["| Name | Years |", l1] = .ok ⟨["Name", "Years"], []⟩ := rfl

/-- Witness for C2's amended theorem at the claim's concrete second line. -/
theorem C2_witness :
    parseFromLines ["| Name | Years |", "Alice, 5 years"] =
      .ok ⟨["Name", "Years"], []⟩ :=
  C2_amended_no_separator_check "Alice, 5 years"

/-- Claim C3, counterexample: the code neither pads a short row with empty
strings nor truncates a long one — in both cases `pd.DataFrame` raises and
the whole parse falls back to raw text.  In particular `| Alice |` under the
two-column header does not normalize to `["Alice", ""]`: the parse fails. -/
theorem C3_counterexample :
    parseMarkdownTable "| Name | Years |\n|---|---|\n| Alice |" = .fallback ∧
    parseMarkdownTable "| A | B |\n|---|---|\n| 1 | 2 | 3 |" = .fallback := by
  decide

/-- Claim C3, amended: there is no per-row pad/truncate policy.  Whenever
the data is non-empty and its maximum cell count differs from the column
count, `pd.DataFrame(data, columns=header)` raises and the whole parse
falls back.  When the maximum does match, rows shorter than it are
right-padded by pandas with NaN (`none`), not with empty strings, as the
concrete second conjunct shows. -/
theorem C3_amended_no_row_normalization (lines : List String)
    (h1 : dataCells lines ≠ [])
    (h2 : dfMaxLen (dataCells lines) ≠ (headerCells lines).length) :
    parseFromLines lines = .fallback ∧
    parseMarkdownTable "| A | B |\n|---|---|\n| x | y |\n| z |" =
      .ok ⟨["A", "B"], [[some "x", some "y"], [some "z", none]]⟩ := by
  constructor
  · unfold parseFromLines
    exact if_neg (not_or.mpr ⟨h1, h2⟩)
  · decide

/-- Witness for C3's amended theorem at the claim's concrete short row. -/
theorem C3_witness :
    parseFromLines ["| Name | Years |", "|---|---|", "| Alice |"] = .fallback ∧
    parseMarkdownTable "| A | B |\n|---|---|\n| x | y |\n| z |" =
      .ok ⟨["A", "B"], [[some "x", some "y"], [some "z", none]]⟩ :=
  C3_amended_no_row_normalization ["| Name | Years |", "|---|---|", "| Alice |"]
    (by decide) (by decide)

/-- Claim C4: on a successful parse, every data row whose cell count equals
the column count appears in the table verbatim (trimmed cells, left-to-right
order, each wrapped in `some` since DataFrame cells may be NaN); and the
four-line concrete input parses to columns `["Name", "Years"]` and rows
`[["Alice", "5"], ["Bob", "3"]]`. -/
theorem C4_full_rows_verbatim (s : String) (t : ParsedTable) (i : Nat) (r : List String)
    (hp : parseMarkdownTable s = .ok t)
    (hr : (dataCells (contentLines s))[i]? = some r)
    (hl : r.length = t.columns.length) :
    t.rows[i]? = some (r.map some) ∧
    parseMarkdownTable "| Name | Years |\n|---|---|\n| Alice | 5 |\n| Bob | 3 |" =
      .ok ⟨["Name", "Years"], [[some "Alice", some "5"], [some "Bob", some "3"]]⟩ := by
  refine ⟨?_, by decide⟩
  unfold parseMarkdownTable at hp
  obtain ⟨-, rfl⟩ := parseFromLines_ok_inv hp
  rw [List.getElem?_map, hr]
  exact congrArg some (padRow_eq_map_some hl)

/-- Witness for C4 at the claim's concrete four-line input, row 0. -/
theorem C4_witness :
    (ParsedTable.mk ["Name", "Years"]
        [[some "Alice", some "5"], [some "Bob", some "3"]]).rows[0]? =
      some (["Alice", "5"].map some) ∧
    parseMarkdownTable "| Name | Years |\n|---|---|\n| Alice | 5 |\n| Bob | 3 |" =
      .ok ⟨["Name", "Years"], [[some "Alice", some "5"], [some "Bob", some "3"]]⟩ :=
  C4_full_rows_verbatim "| Name | Years |\n|---|---|\n| Alice | 5 |\n| Bob | 3 |"
    ⟨["Name", "Years"], [[some "Alice", some "5"], [some "Bob", some "3"]]⟩ 0
    ["Alice", "5"] (by decide) (by decide) (by decide)

/-- Claim C5, counterexample: a line that does not start and end with a pipe
still contributes a row — the code has no stopping rule.  Here the non-pipe
third line `not a table line` becomes a data row of the parsed table,
contradicting the claim that it contributes no row. -/
theorem C5_counterexample :
    parseMarkdownTable "| A |\n|---|\nnot a table line\n| x |" =
      .ok ⟨["A"], [[some "not a table line"], [some "x"]]⟩ := by
  decide

/-- Claim C5, amended: the code collects one row from EVERY line from the
fixed index 2 to the end of input — blank lines and lines without pipes
included (a blank line yields the single-cell row `[""]`) — so a successful
parse always has exactly `lineCount - 2` rows. -/
theorem C5_amended_all_lines_kept (s : String) (t : ParsedTable)
    (hp : parseMarkdownTable s = .ok t) :
    t.rows.length = (contentLines s).length - 2 := by
  unfold parseMarkdownTable at hp
  obtain ⟨-, rfl⟩ := parseFromLines_ok_inv hp
  simp [dataCells]

/-- Witness for C5's amended theorem at an input whose third line is blank:
the blank line still contributes a row, giving 4 - 2 = 2 rows. -/
theorem C5_witness :
    (ParsedTable.mk ["A"] [[some ""], [some "x"]]).rows.length =
      (contentLines "| A |\n|---|\n\n| x |").length - 2 :=
  C5_amended_all_lines_kept "| A |\n|---|\n\n| x |"
    ⟨["A"], [[some ""], [some "x"]]⟩ (by decide)

/-- Claim C6: whenever the markdown-to-DataFrame block succeeds, every row
of the resulting table has exactly `columns.length` cells — the DataFrame is
rectangular (pandas NaN-pads the shorter rows and refuses construction when
the inferred width differs from the header width). -/
theorem C6_rectangular (s : String) (t : ParsedTable)
    (hp : parseMarkdownTable s = .ok t) :
    t.rows.all (fun r => r.length == t.columns.length) = true := by
  unfold parseMarkdownTable at hp
  obtain ⟨hc, rfl⟩ := parseFromLines_ok_inv hp
  simp only [List.all_eq_true]
  intro x hx
  simp only [List.mem_map] at hx
  obtain ⟨r, hr, rfl⟩ := hx
  rcases hc with hc | hc
  · rw [hc] at hr
    cases hr
  · have hle : r.length ≤ dfMaxLen (dataCells (contentLines s)) := length_le_dfMaxLen hr
    rw [hc] at hle
    simp [padRow_length hle]

/-- Witness for C6 at the four-line concrete table. -/
theorem C6_witness :
    (ParsedTable.mk ["Name", "Years"]
        [[some "Alice", some "5"], [some "Bob", some "3"]]).rows.all
      (fun r => r.length ==
        (ParsedTable.mk ["Name", "Years"]
          [[some "Alice", some "5"], [some "Bob", some "3"]]).columns.length) = true :=
  C6_rectangular "| Name | Years |\n|---|---|\n| Alice | 5 |\n| Bob | 3 |"
    ⟨["Name", "Years"], [[some "Alice", some "5"], [some "Bob", some "3"]]⟩ (by decide)

/-- If no text was collected, every file took the warning branch of the
loop, so the skip warnings name every uploaded file. -/
theorem extractionLoop_all_warned {files : List UploadedFile}
    (h : (extractionLoop files).1 = []) :
    (extractionLoop files).2 = files.map UploadedFile.name := by
  induction files with
  | nil => rfl
  | cons f rest ih =>
    cases hf : pyTruthy f.extractResult with
    | true => simp [extractionLoop, hf] at h
    | false =>
      simp only [extractionLoop, hf, Bool.false_eq_true, if_false] at h ⊢
      simp [ih h]

set_option maxRecDepth 16384 in
/-- Claim C7: for every non-empty list of resume texts, the prompt handed to
`model.generate_content` is the fixed template around the texts joined in
order with the literal separator `"\n\n--- NEW RESUME ---\n\n"`, and the
template names the six output fields ("Name", "Age / DOB", "Years of
Experience", "Specialization / JD", "Key Skills / Certifications", "Other
Details") and instructs writing the literal "Not specified" for missing
information. -/
theorem C7_prompt_shape (texts : List String) (h : texts ≠ []) :
    generate_table_from_resumes texts =
      .callModel (promptHead ++ pyJoin "\n\n--- NEW RESUME ---\n\n" texts ++ promptTail) ∧
    occursIn "\"Name\"" promptHead ∧
    occursIn "\"Age / DOB\"" promptHead ∧
    occursIn "\"Years of Experience\"" promptHead ∧
    occursIn "\"Specialization / JD\"" promptHead ∧
    occursIn "\"Key Skills / Certifications\"" promptHead ∧
    occursIn "\"Other Details\"" promptHead ∧
    occursIn "write \"Not specified\"" promptHead := by
  refine ⟨?_, by decide, by decide, by decide, by decide, by decide, by decide, by decide⟩
  simp [generate_table_from_resumes, h, RESUME_SEPARATOR]

/-- Witness for C7 with two concrete resume texts. -/
theorem C7_witness :
    generate_table_from_resumes ["resume text one", "resume text two"] =
      .callModel (promptHead ++
        pyJoin "\n\n--- NEW RESUME ---\n\n" ["resume text one", "resume text two"] ++
        promptTail) ∧
    occursIn "\"Name\"" promptHead ∧
    occursIn "\"Age / DOB\"" promptHead ∧
    occursIn "\"Years of Experience\"" promptHead ∧
    occursIn "\"Specialization / JD\"" promptHead ∧
    occursIn "\"Key Skills / Certifications\"" promptHead ∧
    occursIn "\"Other Details\"" promptHead ∧
    occursIn "write \"Not specified\"" promptHead :=
  C7_prompt_shape ["resume text one", "resume text two"] (by decide)

/-- Claim C8: when the extraction loop collects no text, the
`if all_resume_texts:` guard skips the whole LLM step, so
`model.generate_content` is never invoked; the no-text report the user sees
is the skip warning issued for every uploaded file, and the function-level
guard of `generate_table_from_resumes` would likewise answer
"No resume text provided." without a model call. -/
theorem C8_no_llm_call_when_empty (files : List UploadedFile)
    (h : (extractionLoop files).1 = []) :
    orchestrate files = .skipped ∧
    llmInvoked (orchestrate files) = false ∧
    (extractionLoop files).2 = files.map UploadedFile.name ∧
    generate_table_from_resumes [] = .message "No resume text provided." := by
  have ho : orchestrate files = .skipped := by simp [orchestrate, h]
  exact ⟨ho, by simp [ho, llmInvoked], extractionLoop_all_warned h, rfl⟩

/-- Witness for C8: two files, one unreadable and one with empty text. -/
theorem C8_witness :
    orchestrate [⟨"a.pdf", none⟩, ⟨"b.pdf", some ""⟩] = .skipped ∧
    llmInvoked (orchestrate [⟨"a.pdf", none⟩, ⟨"b.pdf", some ""⟩]) = false ∧
    (extractionLoop [⟨"a.pdf", none⟩, ⟨"b.pdf", some ""⟩]).2 =
      [UploadedFile.mk "a.pdf" none,
       UploadedFile.mk "b.pdf" (some "")].map UploadedFile.name ∧
    generate_table_from_resumes [] = .message "No resume text provided." :=
  C8_no_llm_call_when_empty [⟨"a.pdf", none⟩, ⟨"b.pdf", some ""⟩] (by decide)

/-- Claim C9: a file whose extraction fails is skipped with a warning while
every other file still contributes, wherever it sits in the batch: the
collected texts are exactly those of the files before and after it, and only
it is added to the warned files; with three uploads of which the second
fails, the LLM call is built from the other two texts. -/
theorem C9_failure_skipped_others_kept (pre post : List UploadedFile)
    (f : UploadedFile) (hf : pyTruthy f.extractResult = false) :
    (extractionLoop (pre ++ f :: post)).1 =
      (extractionLoop pre).1 ++ (extractionLoop post).1 ∧
    (extractionLoop (pre ++ f :: post)).2 =
      (extractionLoop pre).2 ++ f.name :: (extractionLoop post).2 ∧
    orchestrate [⟨"one.pdf", some "textA"⟩, ⟨"two.pdf", none⟩, ⟨"three.pdf", some "textC"⟩] =
      .generate (generate_table_from_resumes ["textA", "textC"]) := by
  refine ⟨?_, ?_, rfl⟩ <;>
  · induction pre with
    | nil => simp [extractionLoop, hf]
    | cons a as ih =>
      cases ha : pyTruthy a.extractResult <;> simp [extractionLoop, ha, ih]

/-- Witness for C9 at the three-file scenario of the claim. -/
theorem C9_witness :
    (extractionLoop ([⟨"one.pdf", some "textA"⟩] ++
        UploadedFile.mk "two.pdf" none :: [⟨"three.pdf", some "textC"⟩])).1 =
      (extractionLoop [⟨"one.pdf", some "textA"⟩]).1 ++
        (extractionLoop [⟨"three.pdf", some "textC"⟩]).1 ∧
    (extractionLoop ([⟨"one.pdf", some "textA"⟩] ++
        UploadedFile.mk "two.pdf" none :: [⟨"three.pdf", some "textC"⟩])).2 =
      (extractionLoop [⟨"one.pdf", some "textA"⟩]).2 ++
        (UploadedFile.mk "two.pdf" none).name ::
          (extractionLoop [⟨"three.pdf", some "textC"⟩]).2 ∧
    orchestrate [⟨"one.pdf", some "textA"⟩, ⟨"two.pdf", none⟩, ⟨"three.pdf", some "textC"⟩] =
      .generate (generate_table_from_resumes ["textA", "textC"]) :=
  C9_failure_skipped_others_kept [⟨"one.pdf", some "textA"⟩]
    [⟨"three.pdf", some "textC"⟩] (UploadedFile.mk "two.pdf" none) rfl

/-- Claim C10: a file whose extraction succeeds but yields the empty string
is treated exactly like an extraction failure: the whole loop result
(collected texts and warnings) is identical to the run where that file
failed outright, the file gets a skip warning while later files still run,
and `extract_text_from_pdf` does return the (falsy) success `some ""` on a
PDF whose pages carry no text. -/
theorem C10_empty_text_like_failure (pre post : List UploadedFile) (nm : String) :
    extractionLoop (pre ++ ⟨nm, some ""⟩ :: post) =
      extractionLoop (pre ++ ⟨nm, none⟩ :: post) ∧
    (extractionLoop (UploadedFile.mk nm (some "") :: post)).2 =
      nm :: (extractionLoop post).2 ∧
    extract_text_from_pdf (some []) = some "" ∧
    pyTruthy (some "") = false := by
  refine ⟨?_, rfl, rfl, rfl⟩
  induction pre with
  | nil => rfl
  | cons a as ih =>
    cases ha : pyTruthy a.extractResult <;> simp [extractionLoop, ha, ih]

/-- Witness for C10: the empty-text file sits before one good file. -/
theorem C10_witness :
    extractionLoop ([] ++ ⟨"empty.pdf", some ""⟩ :: [⟨"c.pdf", some "tC"⟩]) =
      extractionLoop ([] ++ ⟨"empty.pdf", none⟩ :: [⟨"c.pdf", some "tC"⟩]) ∧
    (extractionLoop (UploadedFile.mk "empty.pdf" (some "") :: [⟨"c.pdf", some "tC"⟩])).2 =
      "empty.pdf" :: (extractionLoop [⟨"c.pdf", some "tC"⟩]).2 ∧
    extract_text_from_pdf (some []) = some "" ∧
    pyTruthy (some "") = false :=
  C10_empty_text_like_failure [] [⟨"c.pdf", some "tC"⟩] "empty.pdf"
